import Mathlib

/-!
Verification development for the synthetic-objfile / float-format Python
extension of gdb.  The definitions below are a shallow embedding of
`gdb/python/py-objfile-builder.c`, `gdb/python/py-float-format.c`,
`gdb/python/py-type-init.c` and `gdbsupport/checkpoint-timer.h`.
-/

/- ---------------------------------------------------------------------- -/
/- Embedding of gdb/python/py-objfile-builder.c                           -/
/- ---------------------------------------------------------------------- -/

/- The language enum values reachable from `parse_language`. -/
inductive language where
  | language_c
  | language_objc
  | language_cplus
  | language_d
  | language_go
  | language_fortran
  | language_m2
  | language_asm
  | language_pascal
  | language_opencl
  | language_rust
  | language_ada
  | language_unknown
  deriving DecidableEq, Repr

/- `parse_language`: the strcmp chain of py-objfile-builder.c, lines 233-262.
   Every string other than the twelve listed ones maps to `language_unknown`;
   in particular there is no branch for "auto". -/
def parse_language (s : String) : language :=
  if s = "c" then .language_c
  else if s = "objc" then .language_objc
  else if s = "cplus" then .language_cplus
  else if s = "d" then .language_d
  else if s = "go" then .language_go
  else if s = "fortran" then .language_fortran
  else if s = "m2" then .language_m2
  else if s = "asm" then .language_asm
  else if s = "pascal" then .language_pascal
  else if s = "opencl" then .language_opencl
  else if s = "rust" then .language_rust
  else if s = "ada" then .language_ada
  else .language_unknown

/- The three concrete `symbol_def` subclasses.  A gdb `struct type *` is an
   opaque handle here, modelled as a natural number; `CORE_ADDR` is a
   machine address, also modelled as a natural number. -/
inductive symbol_def where
  | typedef_symbol_def (type : Nat) (lang : language)
  | label_symbol_def (address : Nat) (lang : language)
  | static_symbol_def (address : Nat) (lang : language)
  deriving DecidableEq, Repr

/- `objfile_builder_data`: the state behind a gdb.ObjfileBuilder.  The
   `std::unordered_map` is modelled as an association list whose keys are
   unique (uniqueness is maintained by `add_symbol_def`, which refuses
   duplicate keys exactly as `unordered_map::insert` does).  Iteration
   order of the C++ map is unspecified; no claim below depends on it. -/
structure objfile_builder_data where
  installed : Bool
  symbols : List (String × symbol_def)
  name : String
  deriving DecidableEq, Repr

/- `objfile_builder_data::add_symbol_def`: returns the `second` of
   `unordered_map::insert`, i.e. false (and no change) when the key is
   already present. -/
def add_symbol_def (d : objfile_builder_data) (name : String)
    (sd : symbol_def) : Bool × objfile_builder_data :=
  if d.symbols.any (fun p => p.1 = name) then
    (false, d)
  else
    (true, { d with symbols := d.symbols ++ [(name, sd)] })

/- Minimal-symbol kinds used by this file. -/
inductive minimal_symbol_type where
  | mst_text
  | mst_bss
  deriving DecidableEq, Repr

/- Symbol domains used by this file. -/
inductive domain_enum where
  | LABEL_DOMAIN
  | VAR_DOMAIN
  deriving DecidableEq, Repr

/- Address classes used by this file. -/
inductive address_class where
  | LOC_TYPEDEF
  | LOC_LABEL
  | LOC_STATIC
  deriving DecidableEq, Repr

/- One record made through `minimal_symbol_reader::record`. -/
structure min_sym where
  name : String
  address : Nat
  mtype : minimal_symbol_type
  deriving DecidableEq, Repr

/- One full symbol as produced by `new_symbol` plus the per-variant
   settings made in `register_symbol` (type for typedefs, value address
   for labels and statics). -/
structure full_sym where
  name : String
  lang : language
  domain : domain_enum
  aclass : address_class
  section_index : Nat
  type : Option Nat
  address : Option Nat
  deriving DecidableEq, Repr

/- `symbol_def::register_msymbol` for each variant: a typedef records
   nothing, a label records an mst_text entry at its address, a static
   records an mst_bss entry at its address. -/
def register_msymbol (name : String) (sd : symbol_def) : List min_sym :=
  match sd with
  | .typedef_symbol_def _ _ => []
  | .label_symbol_def address _ => [⟨name, address, .mst_text⟩]
  | .static_symbol_def address _ => [⟨name, address, .mst_bss⟩]

/- `symbol_def::register_symbol` for each variant, with the section
   indices the built objfile assigns (`sect_index_text` and
   `sect_index_bss`) passed in. -/
def register_symbol (sect_index_text sect_index_bss : Nat)
    (name : String) (sd : symbol_def) : full_sym :=
  match sd with
  | .typedef_symbol_def ty lang =>
      ⟨name, lang, .LABEL_DOMAIN, .LOC_TYPEDEF, sect_index_text, some ty, none⟩
  | .label_symbol_def address lang =>
      ⟨name, lang, .LABEL_DOMAIN, .LOC_LABEL, sect_index_text, none, some address⟩
  | .static_symbol_def address lang =>
      ⟨name, lang, .VAR_DOMAIN, .LOC_STATIC, sect_index_bss, none, some address⟩

/- The observable result of `build_new_objfile`.  `num_sections` is the
   count passed to OBSTACK_CALLOC (the table runs from `sections_start` to
   `sections_end = sections_start + 4`); `section_init_writes` lists, in
   order, the indices of the `init_section (&of->sections_start[i])`
   calls actually made by the source. -/
structure built_objfile where
  name : String
  num_sections : Nat
  section_init_writes : List Nat
  sect_index_text : Nat
  sect_index_data : Nat
  sect_index_rodata : Nat
  sect_index_bss : Nat
  minsyms : List min_sym
  fullsyms : List full_sym
  deriving DecidableEq, Repr

/- `build_new_objfile`, py-objfile-builder.c lines 91-161.  The four
   init_section calls in the source are made on indices 0, 1, 2 and 4
   (the last one is `init_section (&of->sections_start[4])`). -/
def build_new_objfile (d : objfile_builder_data) : built_objfile :=
  { name := d.name
    num_sections := 4
    section_init_writes := [0, 1, 2, 4]
    sect_index_text := 0
    sect_index_data := 1
    sect_index_rodata := 2
    sect_index_bss := 3
    minsyms := d.symbols.flatMap (fun p => register_msymbol p.1 p.2)
    fullsyms := d.symbols.map (fun p => register_symbol 0 3 p.1 p.2) }

/- The three Python-visible add methods.  Each returns the new builder
   state and an optional Python error message; an error leaves the state
   exactly as it was (the C functions return before touching `inner`).
   When the caller passes no `language` argument the functions substitute
   the string "auto" before calling `parse_language`.  The boolean result
   of `add_symbol_def` is discarded, as in the source. -/
def objbdpy_add_type_symbol (d : objfile_builder_data) (name : String)
    (ty : Nat) (language_name : Option String) :
    objfile_builder_data × Option String :=
  let language_name := language_name.getD "auto"
  let lang := parse_language language_name
  if lang = .language_unknown then
    (d, some "invalid language name")
  else
    ((add_symbol_def d name (.typedef_symbol_def ty lang)).2, none)

def objbdpy_add_label_symbol (d : objfile_builder_data) (name : String)
    (address : Nat) (language_name : Option String) :
    objfile_builder_data × Option String :=
  let language_name := language_name.getD "auto"
  let lang := parse_language language_name
  if lang = .language_unknown then
    (d, some "invalid language name")
  else
    ((add_symbol_def d name (.label_symbol_def address lang)).2, none)

def objbdpy_add_static_symbol (d : objfile_builder_data) (name : String)
    (address : Nat) (language_name : Option String) :
    objfile_builder_data × Option String :=
  let language_name := language_name.getD "auto"
  let lang := parse_language language_name
  if lang = .language_unknown then
    (d, some "invalid language name")
  else
    ((add_symbol_def d name (.static_symbol_def address lang)).2, none)

/- `objbdpy_build`: a second call is refused before any work happens;
   a first call builds the objfile and only then sets `installed`. -/
def objbdpy_build (d : objfile_builder_data) :
    objfile_builder_data × Except String built_objfile :=
  if d.installed then
    (d, .error "build() cannot be run twice on the same object")
  else
    ({ d with installed := true }, .ok (build_new_objfile d))

/- ---------------------------------------------------------------------- -/
/- Embedding of gdb/python/py-float-format.c                              -/
/- ---------------------------------------------------------------------- -/

/- Platform integer limits (LP64: int is 32 bits, long is 64 bits). -/
def INT_MAX : Int := 2147483647
def INT_MIN : Int := -2147483648
def UINT_MAX : Int := 4294967295
def LONG_MAX : Int := 9223372036854775807
def LONG_MIN : Int := -9223372036854775808

/- A Python object as seen by the setters: an arbitrary-precision
   integer, a boolean, or anything else. -/
inductive PyObj where
  | int (v : Int)
  | bool (b : Bool)
  | other
  deriving DecidableEq, Repr

/- PyObject_IsInstance (o, &PyLong_Type): Python booleans are a subtype
   of int, so they pass this check. -/
def PyLong_instance : PyObj → Bool
  | .int _ => true
  | .bool _ => true
  | .other => false

/- PyLong_AsLong: value and raised-error flag.  On overflow it returns
   -1 and raises OverflowError; the C source never checks the flag. -/
def PyLong_AsLong : PyObj → Int × Bool
  | .int v => if v < LONG_MIN ∨ LONG_MAX < v then (-1, true) else (v, false)
  | .bool b => (if b then 1 else 0, false)
  | .other => (-1, true)

/- `py_to_unsigned_int`, py-float-format.c lines 108-132. -/
def py_to_unsigned_int (o : PyObj) : Option Int :=
  if PyLong_instance o = false then none
  else
    let native_val := (PyLong_AsLong o).1
    if UINT_MAX < native_val then none
    else if native_val < 0 then none
    else some native_val

/- Two's-complement truncation of a C long to a 32-bit int, the effect
   of the `(int) native_val` cast in `py_to_int`. -/
def wrap32 (v : Int) : Int := (v + 2147483648) % 4294967296 - 2147483648

/- `py_to_int`, py-float-format.c lines 136-154.  Note: only the upper
   bound INT_MAX is checked; there is no lower-bound check. -/
def py_to_int (o : PyObj) : Option Int :=
  if PyLong_instance o = false then none
  else
    let native_val := (PyLong_AsLong o).1
    if INT_MAX < native_val then none
    else some (wrap32 native_val)

/- `py_to_intbit`: accepts exactly Python booleans. -/
def py_to_intbit : PyObj → Option Bool
  | .bool b => some b
  | _ => none

/- `struct floatformat` as manipulated by this interface.  `intbit`
   true models floatformat_intbit_yes.  The unsigned C fields hold
   values in [0, UINT_MAX]; exp_bias holds values in [INT_MIN, INT_MAX]. -/
structure floatformat where
  totalsize : Int
  sign_start : Int
  exp_start : Int
  exp_len : Int
  exp_bias : Int
  exp_nan : Int
  man_start : Int
  man_len : Int
  intbit : Bool
  name : String
  deriving DecidableEq, Repr

/- `ffpy_init`: value-initialized format (all fields zero, first enum
   value for intbit) with the name set to "". -/
def ffpy_init : floatformat :=
  ⟨0, 0, 0, 0, 0, 0, 0, 0, true, ""⟩

/- The nine property setters produced by INSTANCE_FIELD_SETTER: result
   code (0 success, -1 error) and the resulting format; a conversion
   failure leaves the format untouched. -/
def ffpy_set_totalsize (ff : floatformat) (value : PyObj) : Int × floatformat :=
  match py_to_unsigned_int value with
  | none => (-1, ff)
  | some v => (0, { ff with totalsize := v })

def ffpy_set_sign_start (ff : floatformat) (value : PyObj) : Int × floatformat :=
  match py_to_unsigned_int value with
  | none => (-1, ff)
  | some v => (0, { ff with sign_start := v })

def ffpy_set_exp_start (ff : floatformat) (value : PyObj) : Int × floatformat :=
  match py_to_unsigned_int value with
  | none => (-1, ff)
  | some v => (0, { ff with exp_start := v })

def ffpy_set_exp_len (ff : floatformat) (value : PyObj) : Int × floatformat :=
  match py_to_unsigned_int value with
  | none => (-1, ff)
  | some v => (0, { ff with exp_len := v })

def ffpy_set_exp_bias (ff : floatformat) (value : PyObj) : Int × floatformat :=
  match py_to_int value with
  | none => (-1, ff)
  | some v => (0, { ff with exp_bias := v })

def ffpy_set_exp_nan (ff : floatformat) (value : PyObj) : Int × floatformat :=
  match py_to_unsigned_int value with
  | none => (-1, ff)
  | some v => (0, { ff with exp_nan := v })

def ffpy_set_man_start (ff : floatformat) (value : PyObj) : Int × floatformat :=
  match py_to_unsigned_int value with
  | none => (-1, ff)
  | some v => (0, { ff with man_start := v })

def ffpy_set_man_len (ff : floatformat) (value : PyObj) : Int × floatformat :=
  match py_to_unsigned_int value with
  | none => (-1, ff)
  | some v => (0, { ff with man_len := v })

def ffpy_set_intbit (ff : floatformat) (value : PyObj) : Int × floatformat :=
  match py_to_intbit value with
  | none => (-1, ff)
  | some b => (0, { ff with intbit := b })

/- The corresponding property getters (INSTANCE_FIELD_GETTER). -/
def ffpy_get_totalsize (ff : floatformat) : PyObj := .int ff.totalsize
def ffpy_get_sign_start (ff : floatformat) : PyObj := .int ff.sign_start
def ffpy_get_exp_start (ff : floatformat) : PyObj := .int ff.exp_start
def ffpy_get_exp_len (ff : floatformat) : PyObj := .int ff.exp_len
def ffpy_get_exp_bias (ff : floatformat) : PyObj := .int ff.exp_bias
def ffpy_get_exp_nan (ff : floatformat) : PyObj := .int ff.exp_nan
def ffpy_get_man_start (ff : floatformat) : PyObj := .int ff.man_start
def ffpy_get_man_len (ff : floatformat) : PyObj := .int ff.man_len
def ffpy_get_intbit (ff : floatformat) : PyObj := .bool ff.intbit

/- The writable fields of a FloatFormat, for uniform statements. -/
inductive ff_field where
  | totalsize
  | sign_start
  | exp_start
  | exp_len
  | exp_bias
  | exp_nan
  | man_start
  | man_len
  | intbit
  deriving DecidableEq, Repr

def ffpy_set : ff_field → floatformat → PyObj → Int × floatformat
  | .totalsize => ffpy_set_totalsize
  | .sign_start => ffpy_set_sign_start
  | .exp_start => ffpy_set_exp_start
  | .exp_len => ffpy_set_exp_len
  | .exp_bias => ffpy_set_exp_bias
  | .exp_nan => ffpy_set_exp_nan
  | .man_start => ffpy_set_man_start
  | .man_len => ffpy_set_man_len
  | .intbit => ffpy_set_intbit

def ffpy_get : ff_field → floatformat → PyObj
  | .totalsize => ffpy_get_totalsize
  | .sign_start => ffpy_get_sign_start
  | .exp_start => ffpy_get_exp_start
  | .exp_len => ffpy_get_exp_len
  | .exp_bias => ffpy_get_exp_bias
  | .exp_nan => ffpy_get_exp_nan
  | .man_start => ffpy_get_man_start
  | .man_len => ffpy_get_man_len
  | .intbit => ffpy_get_intbit

/- Whether a field goes through py_to_unsigned_int. -/
def ff_field_unsigned : ff_field → Bool
  | .exp_bias => false
  | .intbit => false
  | _ => true

/- A value inside the field's valid range, in the sense of the spec:
   [0, UINT_MAX] for the unsigned fields, [INT_MIN, INT_MAX] for
   exp_bias, and a boolean for intbit. -/
def ff_in_range : ff_field → PyObj → Bool
  | .intbit, .bool _ => true
  | .intbit, _ => false
  | .exp_bias, .int v => decide (INT_MIN ≤ v ∧ v ≤ INT_MAX)
  | .exp_bias, _ => false
  | _, .int v => decide (0 ≤ v ∧ v ≤ UINT_MAX)
  | _, _ => false

/- ---------------------------------------------------------------------- -/
/- Embedding of gdb/python/py-type-init.c (gdbpy_init_float_type)         -/
/- ---------------------------------------------------------------------- -/

/- The storage relevant to float-type creation: the FloatFormat Python
   objects (mutable through the ffpy setters) and the owner obstack into
   which gdbpy_init_float_type memcpys a snapshot of the format. -/
structure ff_heap where
  objects : List floatformat
  arena : List floatformat
  deriving DecidableEq, Repr

/- A float type as produced by gdbpy_init_float_type: it refers to the
   arena slot holding the copied format, never to the Python object. -/
structure float_type where
  format_index : Nat
  name : String
  deriving DecidableEq, Repr

/- Replace the i-th element of a list, leaving other elements alone. -/
def set_nth : List floatformat → Nat → (floatformat → floatformat) → List floatformat
  | [], _, _ => []
  | x :: xs, 0, g => g x :: xs
  | x :: xs, n + 1, g => x :: set_nth xs n g

/- `gdbpy_init_float_type`, py-type-init.c lines 280-330: the format of
   the Python object at index `i` is copied by value (memcpy) into the
   owner's obstack, and the created type refers to that copy. -/
def gdbpy_init_float_type (h : ff_heap) (i : Nat) (name : String) :
    ff_heap × float_type :=
  let ff := h.objects.getD i ffpy_init
  ({ h with arena := h.arena ++ [ff] }, ⟨h.arena.length, name⟩)

/- An ffpy setter call on the FloatFormat Python object at index `i`. -/
def heap_set_field (h : ff_heap) (i : Nat) (f : ff_field) (o : PyObj) : ff_heap :=
  { h with objects := set_nth h.objects i (fun ff => (ffpy_set f ff o).2) }

/- Run a sequence of setter calls (object index, field, value). -/
def heap_run_sets (h : ff_heap) (ms : List (Nat × ff_field × PyObj)) : ff_heap :=
  ms.foldl (fun h m => heap_set_field h m.1 m.2.1 m.2.2) h

/- The float format a created type reads through its arena slot. -/
def type_float_format (h : ff_heap) (t : float_type) : floatformat :=
  h.arena.getD t.format_index ffpy_init

/- ---------------------------------------------------------------------- -/
/- Embedding of gdbsupport/checkpoint-timer.h                             -/
/- ---------------------------------------------------------------------- -/

inductive event_type where
  | ev_begin
  | ev_end
  deriving DecidableEq, Repr

/- `gdb::checkpoint_timer`.  The rdtsc values are supplied by the
   environment as parameters of the operations. -/
structure checkpoint_timer where
  labels : List String
  times : List Nat
  events : List event_type
  depth : Nat
  max_depth : Nat
  deriving DecidableEq, Repr

/- The default-constructed timer. -/
def checkpoint_timer.init : checkpoint_timer :=
  ⟨[], [], [], 0, 0⟩

/- `checkpoint_timer::begin`. -/
def checkpoint_timer.begin (t : checkpoint_timer) (name : String) (tsc : Nat) :
    checkpoint_timer :=
  { t with
    depth := t.depth + 1
    max_depth := max t.max_depth (t.depth + 1)
    events := t.events ++ [.ev_begin]
    times := t.times ++ [tsc]
    labels := t.labels ++ [name] }

/- `checkpoint_timer::end`: throws before recording anything when no
   checkpoint is open. -/
def checkpoint_timer.end_ (t : checkpoint_timer) (tsc : Nat) :
    Except String checkpoint_timer :=
  if t.depth = 0 then
    .error "awooooooooo"
  else
    .ok { t with
          depth := t.depth - 1
          events := t.events ++ [.ev_end]
          times := t.times ++ [tsc] }

/- A call made by a client of the timer. -/
inductive timer_op where
  | opBegin (name : String) (tsc : Nat)
  | opEnd (tsc : Nat)
  deriving DecidableEq, Repr

/- One client call; a thrown `end` leaves the timer unchanged. -/
def timer_step (t : checkpoint_timer) : timer_op → checkpoint_timer
  | .opBegin name tsc => t.begin name tsc
  | .opEnd tsc =>
      match t.end_ tsc with
      | .error _ => t
      | .ok t' => t'

/- Run a sequence of client calls from a fresh timer. -/
def timer_run (ops : List timer_op) : checkpoint_timer :=
  ops.foldl timer_step checkpoint_timer.init

/- ---------------------------------------------------------------------- -/
/- Helper lemmas                                                          -/
/- ---------------------------------------------------------------------- -/

lemma PyLong_AsLong_int (v : Int) :
    PyLong_AsLong (.int v)
      = if v < LONG_MIN ∨ LONG_MAX < v then (-1, true) else (v, false) := rfl

lemma py_to_unsigned_int_eq (v : Int) :
    py_to_unsigned_int (.int v)
      = if 0 ≤ v ∧ v ≤ UINT_MAX then some v else none := by
  simp only [py_to_unsigned_int, PyLong_instance, PyLong_AsLong_int, UINT_MAX,
    LONG_MIN, LONG_MAX]
  split_ifs <;> simp_all <;> omega

lemma py_to_int_eq (v : Int) :
    py_to_int (.int v)
      = if INT_MAX < v ∧ v ≤ LONG_MAX then none
        else some (if v < LONG_MIN ∨ LONG_MAX < v then -1 else wrap32 v) := by
  simp only [py_to_int, PyLong_instance, PyLong_AsLong_int, INT_MAX, LONG_MIN,
    LONG_MAX, wrap32]
  split_ifs <;> simp_all
  omega

lemma wrap32_eq_self (v : Int) (h0 : INT_MIN ≤ v) (h1 : v ≤ INT_MAX) :
    wrap32 v = v := by
  unfold wrap32
  unfold INT_MIN at h0
  unfold INT_MAX at h1
  omega

/- ---------------------------------------------------------------------- -/
/- Claims                                                                 -/
/- ---------------------------------------------------------------------- -/

/-- C1: the claim states that all four fabricated sections (text, data,
rodata, bss) are initialized and that no initialization write goes outside
the four allocated entries.  The code allocates four entries but runs
`init_section` on indices 0, 1, 2 and 4: index 3 (bss) is never
initialized and index 4 is one past the end of the allocated table. -/
theorem c1_section_init_misses_bss_and_writes_out_of_bounds :
    (build_new_objfile ⟨false, [], "m"⟩).num_sections = 4
    ∧ (build_new_objfile ⟨false, [], "m"⟩).section_init_writes = [0, 1, 2, 4]
    ∧ 3 ∉ (build_new_objfile ⟨false, [], "m"⟩).section_init_writes
    ∧ 4 ∈ (build_new_objfile ⟨false, [], "m"⟩).section_init_writes
    ∧ ¬(4 < (build_new_objfile ⟨false, [], "m"⟩).num_sections) := by
  refine ⟨rfl, rfl, ?_, ?_, ?_⟩ <;> decide

/-- C2: the claim states that an add_*_symbol call without a language tag
defaults to the auto-detected language and succeeds.  In the code the
default tag is the string "auto", which `parse_language` does not
recognize, so every defaulted call fails with "invalid language name" and
stores nothing. -/
theorem c2_default_language_always_rejected :
    parse_language "auto" = .language_unknown
    ∧ (∀ (d : objfile_builder_data) (name : String) (ty : Nat),
         objbdpy_add_type_symbol d name ty none
           = (d, some "invalid language name"))
    ∧ (∀ (d : objfile_builder_data) (name : String) (a : Nat),
         objbdpy_add_label_symbol d name a none
           = (d, some "invalid language name"))
    ∧ (∀ (d : objfile_builder_data) (name : String) (a : Nat),
         objbdpy_add_static_symbol d name a none
           = (d, some "invalid language name")) := by
  refine ⟨rfl, ?_, ?_, ?_⟩ <;> (intro d name x; rfl)

/-- C3 counterexample: the claim states that setting the signed exp_bias
field to a value below the signed range reports an error and leaves the
field unchanged.  Setting exp_bias of a fresh format (exp_bias = 0) to
INT_MIN - 1 = -2147483649 instead succeeds (result 0) and stores the
truncated value 2147483647, changing the field. -/
theorem c3_counterexample_exp_bias_below_range_accepted :
    (ffpy_set .exp_bias ffpy_init (.int (-2147483649))).1 = 0
    ∧ (ffpy_set .exp_bias ffpy_init (.int (-2147483649))).2.exp_bias
        = 2147483647
    ∧ ffpy_init.exp_bias = 0 := by
  refine ⟨?_, ?_, rfl⟩ <;> decide

/-- C3 (amended): for every FloatLayout field and value inside the field's
valid range, setting then getting returns exactly the value set.  The
unsigned fields reject every out-of-range integer (negative or above
UINT_MAX) with an error, leaving the field unchanged.  The signed exp_bias
field rejects only values above INT_MAX that fit in a long; a value below
INT_MIN is accepted with success reported and stored as its 32-bit
two's-complement truncation (-1 when the value does not fit in a long). -/
theorem c3_float_layout_set_get_amended (f : ff_field) (ff : floatformat)
    (o : PyObj) :
    (ff_in_range f o = true →
       (ffpy_set f ff o).1 = 0 ∧ ffpy_get f (ffpy_set f ff o).2 = o)
    ∧ (∀ v : Int, o = .int v → ff_field_unsigned f = true →
         (v < 0 ∨ UINT_MAX < v) → ffpy_set f ff o = (-1, ff))
    ∧ (∀ v : Int, o = .int v → f = .exp_bias → INT_MAX < v → v ≤ LONG_MAX →
         ffpy_set f ff o = (-1, ff))
    ∧ (∀ v : Int, o = .int v → f = .exp_bias → v < INT_MIN →
         ffpy_set f ff o
           = (0, { ff with
                   exp_bias := if v < LONG_MIN then -1 else wrap32 v })) := by
  refine ⟨?_, ?_, ?_, ?_⟩
  · intro hin
    cases f <;> cases o <;> simp [ff_in_range] at hin <;>
      first
      | (obtain ⟨h0, h1⟩ := hin
         constructor <;>
           simp [ffpy_set, ffpy_set_totalsize, ffpy_set_sign_start,
             ffpy_set_exp_start, ffpy_set_exp_len, ffpy_set_exp_nan,
             ffpy_set_man_start, ffpy_set_man_len, py_to_unsigned_int_eq,
             h0, h1, ffpy_get, ffpy_get_totalsize, ffpy_get_sign_start,
             ffpy_get_exp_start, ffpy_get_exp_len, ffpy_get_exp_nan,
             ffpy_get_man_start, ffpy_get_man_len]
         done)
      | (obtain ⟨h0, h1⟩ := hin
         have hw := wrap32_eq_self _ h0 h1
         constructor
         · simp only [ffpy_set, ffpy_set_exp_bias, py_to_int_eq]
           rw [if_neg (by unfold INT_MAX LONG_MAX at *; omega)]
         · simp only [ffpy_set, ffpy_get, ffpy_set_exp_bias,
             ffpy_get_exp_bias, py_to_int_eq]
           rw [if_neg (by unfold INT_MAX LONG_MAX at *; omega),
               if_neg (by unfold LONG_MIN LONG_MAX INT_MIN INT_MAX at *
                          omega)]
           simp [hw])
      | (constructor <;>
           simp [ffpy_set, ffpy_set_intbit, py_to_intbit, ffpy_get,
             ffpy_get_intbit])
  · intro v ho hu hout
    subst ho
    cases f <;> simp [ff_field_unsigned] at hu <;>
      (simp only [ffpy_set, ffpy_set_totalsize, ffpy_set_sign_start,
         ffpy_set_exp_start, ffpy_set_exp_len, ffpy_set_exp_nan,
         ffpy_set_man_start, ffpy_set_man_len, py_to_unsigned_int_eq]
       rw [if_neg (by unfold UINT_MAX at *; omega)])
  · intro v ho hf h1 h2
    subst ho
    subst hf
    simp only [ffpy_set, ffpy_set_exp_bias, py_to_int_eq]
    rw [if_pos ⟨h1, h2⟩]
  · intro v ho hf hlow
    subst ho
    subst hf
    simp only [ffpy_set, ffpy_set_exp_bias, py_to_int_eq]
    rw [if_neg (by unfold INT_MAX INT_MIN LONG_MAX at *; omega)]
    by_cases hll : v < LONG_MIN
    · rw [if_pos (Or.inl hll), if_pos hll]
    · rw [if_neg (by unfold LONG_MIN LONG_MAX INT_MIN at *; omega),
          if_neg hll]

/-- Witness for C3 (amended): a concrete in-range round trip
(totalsize := 7) and a concrete rejected out-of-range write
(totalsize := -1 leaves the format unchanged). -/
theorem c3_float_layout_set_get_amended_witness :
    ff_in_range .totalsize (.int 7) = true
    ∧ (ffpy_set .totalsize ffpy_init (.int 7)).1 = 0
    ∧ ffpy_get .totalsize (ffpy_set .totalsize ffpy_init (.int 7)).2 = .int 7
    ∧ ffpy_set .totalsize ffpy_init (.int (-1)) = (-1, ffpy_init) :=
  ⟨by decide,
   ((c3_float_layout_set_get_amended .totalsize ffpy_init (.int 7)).1
      (by decide)).1,
   ((c3_float_layout_set_get_amended .totalsize ffpy_init (.int 7)).1
      (by decide)).2,
   (c3_float_layout_set_get_amended .totalsize ffpy_init
      (.int (-1))).2.1 (-1) rfl (by decide) (Or.inl (by decide))⟩

/-- C4: on a builder that has not been built, build() succeeds, returns the
newly built objfile and marks the builder installed; a second build() on
the resulting state fails with the "cannot be run twice" error and changes
nothing (in particular the objfile built by the first call is untouched). -/
theorem c4_build_at_most_once (d : objfile_builder_data)
    (h : d.installed = false) :
    objbdpy_build d
      = ({ d with installed := true }, .ok (build_new_objfile d))
    ∧ objbdpy_build { d with installed := true }
      = ({ d with installed := true },
         .error "build() cannot be run twice on the same object") := by
  constructor
  · simp [objbdpy_build, h]
  · simp [objbdpy_build]

/-- Witness for C4 at a fresh builder named "m" with no symbols. -/
theorem c4_build_at_most_once_witness :
    objbdpy_build ⟨false, [], "m"⟩
      = (⟨true, [], "m"⟩, .ok (build_new_objfile ⟨false, [], "m"⟩))
    ∧ objbdpy_build ⟨true, [], "m"⟩
      = (⟨true, [], "m"⟩,
         .error "build() cannot be run twice on the same object") :=
  c4_build_at_most_once ⟨false, [], "m"⟩ rfl

/-- C5: inserting a second definition under a name already present in the
symbol map is a no-op that reports failure: `add_symbol_def` returns false
and the map (with its existing definition) is unchanged, and the
Python-level add call leaves the builder state unchanged. -/
theorem c5_duplicate_insert_is_noop (d : objfile_builder_data)
    (name : String) (sd0 sd : symbol_def) (addr : Nat)
    (h : (name, sd0) ∈ d.symbols) :
    add_symbol_def d name sd = (false, d)
    ∧ objbdpy_add_label_symbol d name addr (some "c") = (d, none) := by
  have hany : d.symbols.any (fun p => p.1 = name) = true :=
    List.any_eq_true.mpr ⟨(name, sd0), h, by simp⟩
  have hc : parse_language "c" = .language_c := rfl
  constructor
  · simp [add_symbol_def, hany]
  · simp [objbdpy_add_label_symbol, hc, add_symbol_def, hany]

/-- Witness for C5: a builder already holding "x" refuses a second "x". -/
theorem c5_duplicate_insert_is_noop_witness :
    add_symbol_def ⟨false, [("x", .label_symbol_def 1 .language_c)], "m"⟩
        "x" (.static_symbol_def 2 .language_c)
      = (false, ⟨false, [("x", .label_symbol_def 1 .language_c)], "m"⟩)
    ∧ objbdpy_add_label_symbol
        ⟨false, [("x", .label_symbol_def 1 .language_c)], "m"⟩ "x" 9 (some "c")
      = (⟨false, [("x", .label_symbol_def 1 .language_c)], "m"⟩, none) :=
  c5_duplicate_insert_is_noop _ "x" (.label_symbol_def 1 .language_c)
    (.static_symbol_def 2 .language_c) 9 (by simp)

/-- C6: an add_*_symbol call whose language tag is not recognized by
parse_language is rejected with "invalid language name" and leaves the
builder's symbol map (indeed the whole builder state) unchanged. -/
theorem c6_unknown_language_add_rejected (d : objfile_builder_data)
    (name : String) (ty addr : Nat) (s : String)
    (h : parse_language s = .language_unknown) :
    objbdpy_add_type_symbol d name ty (some s)
      = (d, some "invalid language name")
    ∧ objbdpy_add_label_symbol d name addr (some s)
      = (d, some "invalid language name")
    ∧ objbdpy_add_static_symbol d name addr (some s)
      = (d, some "invalid language name") := by
  refine ⟨?_, ?_, ?_⟩ <;>
    simp [objbdpy_add_type_symbol, objbdpy_add_label_symbol,
      objbdpy_add_static_symbol, h]

/-- Witness for C6 with the unrecognized tag "klingon". -/
theorem c6_unknown_language_add_rejected_witness :
    objbdpy_add_type_symbol ⟨false, [], "m"⟩ "t" 5 (some "klingon")
      = (⟨false, [], "m"⟩, some "invalid language name")
    ∧ objbdpy_add_label_symbol ⟨false, [], "m"⟩ "t" 7 (some "klingon")
      = (⟨false, [], "m"⟩, some "invalid language name")
    ∧ objbdpy_add_static_symbol ⟨false, [], "m"⟩ "t" 7 (some "klingon")
      = (⟨false, [], "m"⟩, some "invalid language name") :=
  c6_unknown_language_add_rejected ⟨false, [], "m"⟩ "t" 5 7 "klingon" rfl

/- With unique keys an association list determines its values. -/
lemma assoc_keys_nodup_val_eq {l : List (String × symbol_def)}
    (hnd : (l.map Prod.fst).Nodup) {n : String} {a b : symbol_def}
    (ha : (n, a) ∈ l) (hb : (n, b) ∈ l) : a = b := by
  induction l with
  | nil => cases ha
  | cons x xs ih =>
    have h' : x.1 ∉ xs.map Prod.fst ∧ (xs.map Prod.fst).Nodup := by
      rw [List.map_cons, List.nodup_cons] at hnd
      exact hnd
    rcases List.mem_cons.mp ha with ha' | ha' <;>
      rcases List.mem_cons.mp hb with hb' | hb'
    · have hab : (n, a) = (n, b) := ha'.trans hb'.symm
      exact congrArg Prod.snd hab
    · subst ha'
      exact absurd (List.mem_map.mpr ⟨(n, b), hb', rfl⟩) h'.1
    · subst hb'
      exact absurd (List.mem_map.mpr ⟨(n, a), ha', rfl⟩) h'.1
    · exact ih h'.2 ha' hb'

/-- C7: a builder holding a Label definition named `n` at address `a`
builds an objfile whose minimal-symbol table has an mst_text entry for `n`
at `a` and whose full-symbol table has a LOC_LABEL symbol named `n` bound
to address `a` (in the text section, index 0). -/
theorem c7_label_symbol_in_both_tables (d : objfile_builder_data)
    (n : String) (a : Nat) (lang : language)
    (h : (n, symbol_def.label_symbol_def a lang) ∈ d.symbols) :
    (⟨n, a, .mst_text⟩ : min_sym) ∈ (build_new_objfile d).minsyms
    ∧ (⟨n, lang, .LABEL_DOMAIN, .LOC_LABEL, 0, none, some a⟩ : full_sym)
        ∈ (build_new_objfile d).fullsyms := by
  constructor
  · exact List.mem_flatMap.mpr
      ⟨(n, .label_symbol_def a lang), h, by simp [register_msymbol]⟩
  · exact List.mem_map.mpr ⟨(n, .label_symbol_def a lang), h, rfl⟩

/-- Witness for C7: label "f" at address 4096. -/
theorem c7_label_symbol_in_both_tables_witness :
    (⟨"f", 4096, .mst_text⟩ : min_sym)
        ∈ (build_new_objfile
            ⟨false, [("f", .label_symbol_def 4096 .language_c)], "m"⟩).minsyms
    ∧ (⟨"f", .language_c, .LABEL_DOMAIN, .LOC_LABEL, 0, none, some 4096⟩ :
          full_sym)
        ∈ (build_new_objfile
            ⟨false, [("f", .label_symbol_def 4096 .language_c)], "m"⟩).fullsyms :=
  c7_label_symbol_in_both_tables _ "f" 4096 .language_c (by simp)

/-- C8: a builder holding a Typedef definition named `n` for type `ty`
builds an objfile whose full-symbol table has a LOC_TYPEDEF symbol named
`n` carrying that type, while the minimal-symbol table has no entry named
`n` (the builder's keys are unique, so no other definition shares `n`). -/
theorem c8_typedef_symbol_full_table_only (d : objfile_builder_data)
    (n : String) (ty : Nat) (lang : language)
    (h : (n, symbol_def.typedef_symbol_def ty lang) ∈ d.symbols)
    (hnd : (d.symbols.map Prod.fst).Nodup) :
    (⟨n, lang, .LABEL_DOMAIN, .LOC_TYPEDEF, 0, some ty, none⟩ : full_sym)
        ∈ (build_new_objfile d).fullsyms
    ∧ ∀ m ∈ (build_new_objfile d).minsyms, m.name ≠ n := by
  constructor
  · exact List.mem_map.mpr ⟨(n, .typedef_symbol_def ty lang), h, rfl⟩
  · intro m hm
    rcases List.mem_flatMap.mp hm with ⟨p, hp, hmp⟩
    obtain ⟨k, sd⟩ := p
    cases sd with
    | typedef_symbol_def t l => simp [register_msymbol] at hmp
    | label_symbol_def addr l =>
      simp only [register_msymbol, List.mem_singleton] at hmp
      subst hmp
      intro hkn
      have hk : k = n := hkn
      subst hk
      have := assoc_keys_nodup_val_eq hnd hp h
      simp at this
    | static_symbol_def addr l =>
      simp only [register_msymbol, List.mem_singleton] at hmp
      subst hmp
      intro hkn
      have hk : k = n := hkn
      subst hk
      have := assoc_keys_nodup_val_eq hnd hp h
      simp at this

/-- Witness for C8: typedef "t" for type 5 next to label "l". -/
theorem c8_typedef_symbol_full_table_only_witness :
    (⟨"t", .language_c, .LABEL_DOMAIN, .LOC_TYPEDEF, 0, some 5, none⟩ :
        full_sym)
      ∈ (build_new_objfile
          ⟨false, [("t", .typedef_symbol_def 5 .language_c),
                   ("l", .label_symbol_def 7 .language_c)], "m"⟩).fullsyms
    ∧ ∀ m ∈ (build_new_objfile
          ⟨false, [("t", .typedef_symbol_def 5 .language_c),
                   ("l", .label_symbol_def 7 .language_c)], "m"⟩).minsyms,
        m.name ≠ "t" :=
  c8_typedef_symbol_full_table_only _ "t" 5 .language_c (by simp) (by simp)

/- Setter calls never touch the arena: they mutate only the Python
   objects. -/
lemma heap_run_sets_arena (h : ff_heap)
    (ms : List (Nat × ff_field × PyObj)) :
    (heap_run_sets h ms).arena = h.arena := by
  induction ms generalizing h with
  | nil => rfl
  | cons m ms ih =>
    have hstep : heap_run_sets h (m :: ms)
        = heap_run_sets (heap_set_field h m.1 m.2.1 m.2.2) ms := rfl
    rw [hstep, ih]
    rfl

lemma getD_append_length (l : List floatformat) (x : floatformat) :
    (l ++ [x]).getD l.length ffpy_init = x := by
  simp [List.getD, List.getElem?_append_right]

/-- C9: the float format of a type created by gdbpy_init_float_type is the
by-value snapshot of the source FloatFormat object taken at creation time,
and it stays equal to that snapshot after any sequence of later setter
calls on any FloatFormat objects (including the source one). -/
theorem c9_float_format_copied_by_value (h : ff_heap) (i : Nat)
    (nm : String) (ms : List (Nat × ff_field × PyObj)) :
    type_float_format (heap_run_sets (gdbpy_init_float_type h i nm).1 ms)
        (gdbpy_init_float_type h i nm).2
      = h.objects.getD i ffpy_init := by
  unfold type_float_format
  rw [heap_run_sets_arena]
  exact getD_append_length h.arena (h.objects.getD i ffpy_init)

/- ---------------------------------------------------------------------- -/
/- Checkpoint-timer lemmas                                                -/
/- ---------------------------------------------------------------------- -/

/- Occurrences of an event kind in a trace. -/
def count_ev (e : event_type) (l : List event_type) : Nat :=
  (l.filter (fun x => x = e)).length

lemma count_ev_append (e : event_type) (l1 l2 : List event_type) :
    count_ev e (l1 ++ l2) = count_ev e l1 + count_ev e l2 := by
  simp [count_ev, List.filter_append]

lemma count_ev_one (e x : event_type) :
    count_ev e [x] = if x = e then 1 else 0 := by
  cases e <;> cases x <;> decide

/- The timer's invariant: the open depth equals begins minus ends, and
   every prefix of the event trace has at least as many begins as ends. -/
def timer_inv (t : checkpoint_timer) : Prop :=
  t.depth + count_ev .ev_end t.events = count_ev .ev_begin t.events
  ∧ ∀ n, count_ev .ev_end (t.events.take n)
           ≤ count_ev .ev_begin (t.events.take n)

lemma timer_inv_init : timer_inv checkpoint_timer.init := by
  constructor
  · rfl
  · intro n
    simp [checkpoint_timer.init, count_ev]

lemma timer_inv_step (t : checkpoint_timer) (op : timer_op)
    (ht : timer_inv t) : timer_inv (timer_step t op) := by
  obtain ⟨h1, h2⟩ := ht
  cases op with
  | opBegin name tsc =>
    constructor
    · simp only [timer_step, checkpoint_timer.begin, count_ev_append,
        count_ev_one]
      simp
      omega
    · intro n
      simp only [timer_step, checkpoint_timer.begin]
      rcases le_or_lt n t.events.length with hle | hgt
      · rw [List.take_append_of_le_length hle]
        exact h2 n
      · rw [List.take_of_length_le (by simp; omega)]
        rw [count_ev_append, count_ev_append, count_ev_one, count_ev_one]
        have h3 := h2 t.events.length
        rw [List.take_length] at h3
        simp
        omega
  | opEnd tsc =>
    by_cases hd : t.depth = 0
    · have he : t.end_ tsc = .error "awooooooooo" := by
        simp [checkpoint_timer.end_, hd]
      simp only [timer_step, he]
      exact ⟨h1, h2⟩
    · have he : t.end_ tsc
          = .ok { t with
                  depth := t.depth - 1
                  events := t.events ++ [.ev_end]
                  times := t.times ++ [tsc] } := by
        simp [checkpoint_timer.end_, hd]
      simp only [timer_step, he]
      constructor
      · simp only [count_ev_append, count_ev_one]
        simp
        omega
      · intro n
        rcases le_or_lt n t.events.length with hle | hgt
        · simp only []
          rw [List.take_append_of_le_length hle]
          exact h2 n
        · simp only []
          rw [List.take_of_length_le (by simp; omega)]
          rw [count_ev_append, count_ev_append, count_ev_one, count_ev_one]
          simp
          omega

lemma timer_run_inv (ops : List timer_op) : timer_inv (timer_run ops) := by
  suffices h : ∀ t, timer_inv t → timer_inv (ops.foldl timer_step t) from
    h _ timer_inv_init
  induction ops with
  | nil => intro t ht; exact ht
  | cons op ops ih => intro t ht; exact ih _ (timer_inv_step t op ht)

/-- C10: calling end() on a timer with no open checkpoint throws (and the
thrown call records nothing, leaving the timer unchanged); consequently,
over any sequence of client calls, the recorded ends never exceed the
recorded begins — on the full trace, where depth equals begins minus ends,
and on every prefix of the trace, so every recorded end event matches an
earlier begin event. -/
theorem c10_checkpoint_timer_end_guard :
    (∀ (t : checkpoint_timer) (tsc : Nat), t.depth = 0 →
       t.end_ tsc = .error "awooooooooo"
       ∧ timer_step t (.opEnd tsc) = t)
    ∧ (∀ ops : List timer_op,
         count_ev .ev_end (timer_run ops).events
             ≤ count_ev .ev_begin (timer_run ops).events
         ∧ (timer_run ops).depth + count_ev .ev_end (timer_run ops).events
             = count_ev .ev_begin (timer_run ops).events)
    ∧ (∀ (ops : List timer_op) (n : Nat),
         count_ev .ev_end ((timer_run ops).events.take n)
           ≤ count_ev .ev_begin ((timer_run ops).events.take n)) := by
  refine ⟨?_, ?_, ?_⟩
  · intro t tsc hd
    have he : t.end_ tsc = .error "awooooooooo" := by
      simp [checkpoint_timer.end_, hd]
    exact ⟨he, by simp [timer_step, he]⟩
  · intro ops
    obtain ⟨h1, h2⟩ := timer_run_inv ops
    exact ⟨by omega, h1⟩
  · intro ops n
    exact (timer_run_inv ops).2 n

/-- Witness for C10: a fresh timer rejects end(), and a begin/end pair
keeps the trace balanced. -/
theorem c10_checkpoint_timer_end_guard_witness :
    checkpoint_timer.init.end_ 5 = .error "awooooooooo"
    ∧ timer_step checkpoint_timer.init (.opEnd 5) = checkpoint_timer.init
    ∧ count_ev .ev_end (timer_run [.opBegin "a" 1, .opEnd 2]).events
        ≤ count_ev .ev_begin (timer_run [.opBegin "a" 1, .opEnd 2]).events :=
  ⟨(c10_checkpoint_timer_end_guard.1 checkpoint_timer.init 5 rfl).1,
   (c10_checkpoint_timer_end_guard.1 checkpoint_timer.init 5 rfl).2,
   (c10_checkpoint_timer_end_guard.2.1 [.opBegin "a" 1, .opEnd 2]).1⟩
